import Mathlib

/-!
Shallow embedding of the WS281x-over-SPI LED driver
(drivers/leds/leds-ws281x-spi.c) and proofs about its encoding engine,
frame-buffer management and update protocol.

Bytes are modelled as natural numbers; the 8-bit truncation the C code
performs on `unsigned char` values is written out explicitly as `% 256`.
Buffers written contiguously from offset 0 are modelled as the list of
bytes emitted, in write order.
-/

/-- Chip-specific protocol constants: `struct ws281x_chipinfo`
(src lines 33-40).  Fields keep the source's names. -/
structure ws281x_chipinfo where
  zero_val : Nat
  one_val : Nat
  write_freq : Nat
  subpixel_sz : Nat
  ch_per_led : Nat
  pixel_sz : Nat
  deriving DecidableEq

/-- The reference WS2812B profile `ws2812b_info` (src lines 317-324):
zero symbol `0xc0`, one symbol `0xfc`, 6.4 MHz, 8 symbol bytes per
subpixel, 3 channels per LED, `pixel_sz = BITS_PER_BYTE * 3`. -/
def ws2812b_info : ws281x_chipinfo :=
  { zero_val := 0xc0
    one_val := 0xfc
    write_freq := 6400000
    subpixel_sz := 8
    ch_per_led := 3
    pixel_sz := 8 * 3 }

/-- One color channel of a multicolor LED classdev (`struct mc_subled`
from the LED framework); only the fields this driver reads or writes
are modelled. -/
structure mc_subled where
  color_index : Nat
  brightness : Nat
  deriving DecidableEq

/-- Default subled array, used as the out-of-range default for list
lookups (the C code never indexes out of range). -/
def noSubled : Fin 3 → mc_subled := fun _ => { color_index := 0, brightness := 0 }

/-- The loop of `ws281x_format_subpixel` (src lines 91-95): `n` remaining
iterations, `pixel` the current value of the 8-bit loop variable.  Each
iteration emits `one_val` when bit 7 of `pixel` is set (`pixel & 0x80`),
else `zero_val`, then shifts `pixel` left by one with 8-bit truncation
(`pixel <<= 1` on an `unsigned char`). -/
def formatSubpixelAux (info : ws281x_chipinfo) : Nat → Nat → List Nat
  | 0, _ => []
  | n + 1, pixel =>
      (if pixel &&& 0x80 ≠ 0 then info.one_val else info.zero_val)
        :: formatSubpixelAux info n ((pixel <<< 1) % 256)

/-- `ws281x_format_subpixel` (src lines 86-96): emit
`info.subpixel_sz` symbol bytes for the 8-bit subpixel value, MSB first.
The `% 256` is the conversion of the caller's value to the
`unsigned char pixel` parameter. -/
def ws281x_format_subpixel (info : ws281x_chipinfo) (pixel : Nat) : List Nat :=
  formatSubpixelAux info info.subpixel_sz (pixel % 256)

/-- `ws2812_format_pixel_grb` (src lines 112-122): the pixel region is the
green encoding, then (advancing the buffer pointer by `subpixel_sz`) the
red encoding, then the blue encoding. -/
def ws2812_format_pixel_grb (info : ws281x_chipinfo) (g r b : Nat) : List Nat :=
  ws281x_format_subpixel info g
    ++ ws281x_format_subpixel info r
    ++ ws281x_format_subpixel info b

/-- `ws281x_update_pixelstream` (src lines 166-178): for every LED in
order, write its pixel encoding at the current buffer position and
advance by `pixel_sz`.  The green argument is `subled_info[1].brightness`,
red is `subled_info[0].brightness`, blue is `subled_info[2].brightness`. -/
def ws281x_update_pixelstream (info : ws281x_chipinfo) :
    List (Fin 3 → mc_subled) → List Nat
  | [] => []
  | s :: rest =>
      ws2812_format_pixel_grb info (s 1).brightness (s 0).brightness (s 2).brightness
        ++ ws281x_update_pixelstream info rest

/-- The spec's decoder for the subpixel round-trip property: read the
symbol sequence MSB-first, mapping `one_val` to bit 1 and anything else
(in particular `zero_val`) to bit 0. -/
def decodeSubpixel (info : ws281x_chipinfo) (syms : List Nat) : Nat :=
  syms.foldl (fun acc s => 2 * acc + (if s = info.one_val then 1 else 0)) 0

/-- `ws281x_write` (src lines 133-154), with the transport's `spi_sync`
result as input: on nonzero result log and return it unchanged, else
return 0. -/
def ws281x_write (spi_sync_ret : Int) : Int :=
  if spi_sync_ret ≠ 0 then spi_sync_ret else 0

/-- The transfer length `ws281x_write` hands to the transport
(src line 144): `xfers.len = pixel_sz * num_leds`. -/
def ws281x_write_len (info : ws281x_chipinfo) (num_leds : Nat) : Nat :=
  info.pixel_sz * num_leds

/-- The pixelstream allocation size at probe (src lines 294-296):
`devm_kcalloc(pixel_sz * count, sizeof(uint8_t))`. -/
def ws281x_alloc_len (info : ws281x_chipinfo) (count : Nat) : Nat :=
  info.pixel_sz * count

/-- `LED_COLOR_ID_RED` from dt-bindings/leds/common.h. -/
def LED_COLOR_ID_RED : Nat := 1

/-- `LED_COLOR_ID_GREEN` from dt-bindings/leds/common.h. -/
def LED_COLOR_ID_GREEN : Nat := 2

/-- `LED_COLOR_ID_BLUE` from dt-bindings/leds/common.h. -/
def LED_COLOR_ID_BLUE : Nat := 3

/-- The color index `ws281x_register_leds` assigns to each subled slot
(src lines 236-238): `mc_led_info[0] = RED`, `[1] = GREEN`, `[2] = BLUE`. -/
def ws281x_register_colors : Fin 3 → Nat
  | 0 => LED_COLOR_ID_RED
  | 1 => LED_COLOR_ID_GREEN
  | 2 => LED_COLOR_ID_BLUE

/-- The mutable state of one chain that the update protocol touches:
the per-LED subled arrays (`leds[i].led.subled_info`, the channel state)
and the pixelstream buffer. -/
structure ws281x_state where
  leds : List (Fin 3 → mc_subled)
  pixelstream : List Nat
  deriving DecidableEq

/-- The external `led_mc_calc_color_components` call (LED multicolor
framework, outside this driver): overwrite each subled's `brightness`
with the caller-computed per-channel component, keeping the other
fields. -/
def led_mc_calc_color_components (s : Fin 3 → mc_subled) (comps : Fin 3 → Nat) :
    Fin 3 → mc_subled :=
  fun i => { s i with brightness := comps i }

/-- `ws281x_brightness_set_blocking` (src lines 194-208) as a state
transformer: update LED `k`'s channel state with the computed components,
rebuild the whole pixelstream from the updated channel state, transmit,
and return the transport's result. -/
def ws281x_brightness_set_blocking (info : ws281x_chipinfo) (st : ws281x_state)
    (k : Nat) (comps : Fin 3 → Nat) (spi_sync_ret : Int) : ws281x_state × Int :=
  let leds2 := st.leds.set k (led_mc_calc_color_components (st.leds.getD k noSubled) comps)
  let stream2 := ws281x_update_pixelstream info leds2
  ({ leds := leds2, pixelstream := stream2 }, ws281x_write spi_sync_ret)

/-- The statements executed by `ws281x_brightness_set_blocking`, as
events (src lines 201-205). -/
inductive BsEvent where
  | calcColorComponents
  | lockMutex
  | updatePixelstream
  | spiWrite
  | unlockMutex
  deriving DecidableEq

/-- The statement sequence of `ws281x_brightness_set_blocking`
(src lines 201-205), in program order: `led_mc_calc_color_components`,
`mutex_lock`, `ws281x_update_pixelstream`, `ws281x_write`,
`mutex_unlock`. -/
def ws281x_brightness_set_trace : List BsEvent :=
  [BsEvent.calcColorComponents, BsEvent.lockMutex, BsEvent.updatePixelstream,
   BsEvent.spiWrite, BsEvent.unlockMutex]

/-- Whether an event mutates the channel state (the subled brightness
values): only `led_mc_calc_color_components` does. -/
def mutatesChannelState : BsEvent → Bool
  | BsEvent.calcColorComponents => true
  | _ => false

/-- Whether an event mutates the frame buffer: only
`ws281x_update_pixelstream` does. -/
def mutatesFrameBuffer : BsEvent → Bool
  | BsEvent.updatePixelstream => true
  | _ => false

/-- Whether an event transmits the frame buffer: only `ws281x_write`
does. -/
def transmits : BsEvent → Bool
  | BsEvent.spiWrite => true
  | _ => false

/-- The mutex is held while executing the event at position `i` of a
straight-line trace: strictly more `mutex_lock` than `mutex_unlock`
events precede position `i`. -/
def lockHeldAt (tr : List BsEvent) (i : Nat) : Bool :=
  (tr.take i).count BsEvent.lockMutex > (tr.take i).count BsEvent.unlockMutex

/-- The lock discipline the spec claims for
`ws281x_brightness_set_blocking`: every event that mutates the channel
state or the frame buffer executes while the mutex is held. -/
def mutationsUnderLock (tr : List BsEvent) : Prop :=
  ∀ i, i < tr.length →
    (mutatesChannelState (tr.getD i BsEvent.lockMutex) = true
      ∨ mutatesFrameBuffer (tr.getD i BsEvent.lockMutex) = true) →
    lockHeldAt tr i = true

/-- Linux `EINVAL` error number. -/
def EINVAL : Int := 22

/-- Linux `ENOMEM` error number. -/
def ENOMEM : Int := 12

/-- The externally visible steps of `ws281x_spi_probe`, as events. -/
inductive ProbeEvent where
  | getChildCount
  | allocChain
  | mutexInit
  | spiSetup
  | allocPixelstream
  | registerLeds
  deriving DecidableEq

/-- `ws281x_spi_probe` (src lines 259-308) as a trace of executed steps
plus a return value.  Inputs are the child-node count and the results of
the fallible external calls (allocations, `devm_mutex_init`,
`spi_setup`, LED registration).  Each failure aborts immediately with
the corresponding error, as in the source; `dev_err_probe` returns the
error it is given. -/
def ws281x_spi_probe (count : Nat) (chain_alloc_ok : Bool) (mutex_ret : Int)
    (spi_setup_ret : Int) (stream_alloc_ok : Bool) (register_ret : Int) :
    List ProbeEvent × Int :=
  if count = 0 then
    ([ProbeEvent.getChildCount], -EINVAL)
  else if chain_alloc_ok = false then
    ([ProbeEvent.getChildCount, ProbeEvent.allocChain], -ENOMEM)
  else if mutex_ret ≠ 0 then
    ([ProbeEvent.getChildCount, ProbeEvent.allocChain, ProbeEvent.mutexInit], mutex_ret)
  else if spi_setup_ret ≠ 0 then
    ([ProbeEvent.getChildCount, ProbeEvent.allocChain, ProbeEvent.mutexInit,
      ProbeEvent.spiSetup], spi_setup_ret)
  else if stream_alloc_ok = false then
    ([ProbeEvent.getChildCount, ProbeEvent.allocChain, ProbeEvent.mutexInit,
      ProbeEvent.spiSetup, ProbeEvent.allocPixelstream], -ENOMEM)
  else if register_ret ≠ 0 then
    ([ProbeEvent.getChildCount, ProbeEvent.allocChain, ProbeEvent.mutexInit,
      ProbeEvent.spiSetup, ProbeEvent.allocPixelstream, ProbeEvent.registerLeds],
     register_ret)
  else
    ([ProbeEvent.getChildCount, ProbeEvent.allocChain, ProbeEvent.mutexInit,
      ProbeEvent.spiSetup, ProbeEvent.allocPixelstream, ProbeEvent.registerLeds], 0)

/-- The two-LED chain of the spec's end-to-end example: LED 0 with all
channels at 0, LED 1 with red (slot 0) at 255 and the other channels
at 0.  Slot colors are the ones `ws281x_register_leds` assigns. -/
def exampleChain : List (Fin 3 → mc_subled) :=
  [fun i => { color_index := ws281x_register_colors i, brightness := 0 },
   fun i => { color_index := ws281x_register_colors i,
              brightness := if i = 0 then 255 else 0 }]

/-! ## Helper lemmas -/

theorem formatSubpixelAux_length (info : ws281x_chipinfo) (n p : Nat) :
    (formatSubpixelAux info n p).length = n := by
  induction n generalizing p with
  | zero => rfl
  | succ n ih => simp [formatSubpixelAux, ih]

theorem ws281x_format_subpixel_length (info : ws281x_chipinfo) (pixel : Nat) :
    (ws281x_format_subpixel info pixel).length = info.subpixel_sz :=
  formatSubpixelAux_length info info.subpixel_sz (pixel % 256)

theorem ws2812_format_pixel_grb_length (info : ws281x_chipinfo) (g r b : Nat) :
    (ws2812_format_pixel_grb info g r b).length = 3 * info.subpixel_sz := by
  simp [ws2812_format_pixel_grb, ws281x_format_subpixel_length]
  ring

theorem ws281x_update_pixelstream_length (info : ws281x_chipinfo)
    (leds : List (Fin 3 → mc_subled)) :
    (ws281x_update_pixelstream info leds).length
      = leds.length * (3 * info.subpixel_sz) := by
  induction leds with
  | nil => simp [ws281x_update_pixelstream]
  | cons s rest ih =>
      simp [ws281x_update_pixelstream, ws2812_format_pixel_grb_length, ih]
      ring

theorem mem_formatSubpixelAux (info : ws281x_chipinfo) (n p byte : Nat)
    (hb : byte ∈ formatSubpixelAux info n p) :
    byte = info.zero_val ∨ byte = info.one_val := by
  induction n generalizing p with
  | zero => simp [formatSubpixelAux] at hb
  | succ n ih =>
      rw [formatSubpixelAux] at hb
      rcases List.mem_cons.mp hb with h | h
      · subst h
        split
        · exact Or.inr rfl
        · exact Or.inl rfl
      · exact ih _ h

theorem mem_ws281x_format_subpixel (info : ws281x_chipinfo) (pixel byte : Nat)
    (hb : byte ∈ ws281x_format_subpixel info pixel) :
    byte = info.zero_val ∨ byte = info.one_val :=
  mem_formatSubpixelAux info info.subpixel_sz (pixel % 256) byte hb

theorem mem_ws2812_format_pixel_grb (info : ws281x_chipinfo) (g r b byte : Nat)
    (hb : byte ∈ ws2812_format_pixel_grb info g r b) :
    byte = info.zero_val ∨ byte = info.one_val := by
  rw [ws2812_format_pixel_grb] at hb
  rcases List.mem_append.mp hb with h | h
  · rcases List.mem_append.mp h with h2 | h2
    · exact mem_ws281x_format_subpixel info g byte h2
    · exact mem_ws281x_format_subpixel info r byte h2
  · exact mem_ws281x_format_subpixel info b byte h

theorem mem_ws281x_update_pixelstream (info : ws281x_chipinfo)
    (leds : List (Fin 3 → mc_subled)) (byte : Nat)
    (hb : byte ∈ ws281x_update_pixelstream info leds) :
    byte = info.zero_val ∨ byte = info.one_val := by
  induction leds with
  | nil => simp [ws281x_update_pixelstream] at hb
  | cons s rest ih =>
      rw [ws281x_update_pixelstream] at hb
      rcases List.mem_append.mp hb with h | h
      · exact mem_ws2812_format_pixel_grb info _ _ _ byte h
      · exact ih h

theorem ws281x_update_pixelstream_region (info : ws281x_chipinfo)
    (leds : List (Fin 3 → mc_subled)) (j : Nat) (hj : j < leds.length) :
    ((ws281x_update_pixelstream info leds).drop (j * (3 * info.subpixel_sz))).take
        (3 * info.subpixel_sz)
      = ws2812_format_pixel_grb info ((leds.getD j noSubled) 1).brightness
          ((leds.getD j noSubled) 0).brightness ((leds.getD j noSubled) 2).brightness := by
  induction leds generalizing j with
  | nil => cases hj
  | cons s rest ih =>
      cases j with
      | zero =>
          rw [ws281x_update_pixelstream]
          simp only [Nat.zero_mul, List.drop_zero, List.getD_cons_zero]
          exact List.take_left' (ws2812_format_pixel_grb_length info _ _ _)
      | succ j =>
          rw [ws281x_update_pixelstream]
          rw [show (j + 1) * (3 * info.subpixel_sz)
                = (3 * info.subpixel_sz) + j * (3 * info.subpixel_sz) by ring]
          rw [← List.drop_drop, List.drop_left' (ws2812_format_pixel_grb_length info _ _ _)]
          rw [List.getD_cons_succ]
          exact ih j (by simpa using hj)

theorem and_0x80_ne_zero_iff (p : Nat) : p &&& 0x80 ≠ 0 ↔ p.testBit 7 = true := by
  have h : p &&& 0x80 = (p.testBit 7).toNat * 2 ^ 7 := by
    have h2 := Nat.and_two_pow p 7
    norm_num at h2 ⊢
    exact h2
  cases hb : p.testBit 7 <;> simp [h, hb]

theorem and_0x80_ne_zero_iff_le (p : Nat) (hp : p < 256) :
    p &&& 0x80 ≠ 0 ↔ 128 ≤ p := by
  rw [and_0x80_ne_zero_iff p, Nat.testBit_to_div_mod, decide_eq_true_eq]
  have h : (2 : Nat) ^ 7 = 128 := by norm_num
  rw [h]
  omega

theorem formatSubpixelAux_getElem (info : ws281x_chipinfo) (n : Nat) (hn : n ≤ 8)
    (p : Nat) (hp : p < 256) (i : Nat) (hi : i < n) :
    (formatSubpixelAux info n p)[i]? =
      some (if p.testBit (7 - i) then info.one_val else info.zero_val) := by
  induction n generalizing p i with
  | zero => cases hi
  | succ n ih =>
      cases i with
      | zero =>
          rw [formatSubpixelAux]
          rw [List.getElem?_cons_zero]
          congr 1
          have h128 : p &&& 0x80 = (p.testBit 7).toNat * 2 ^ 7 := by
            have h2 := Nat.and_two_pow p 7
            norm_num at h2 ⊢
            exact h2
          cases hb : p.testBit 7 <;> simp [h128, hb]
      | succ i =>
          rw [formatSubpixelAux, List.getElem?_cons_succ]
          have hp2 : (p <<< 1) % 256 < 256 := Nat.mod_lt _ (by norm_num)
          rw [ih (by omega) _ hp2 i (by omega)]
          have hbit : ((p <<< 1) % 256).testBit (7 - i) = p.testBit (7 - (i + 1)) := by
            rw [show (256 : Nat) = 2 ^ 8 by norm_num, Nat.testBit_mod_two_pow,
              Nat.testBit_shiftLeft]
            have h1 : 7 - i < 8 := by omega
            have h2 : 7 - i ≥ 1 := by omega
            have h3 : 7 - i - 1 = 7 - (i + 1) := by omega
            simp [h1, h2, h3]
          rw [hbit]

theorem formatSubpixelAux_decode (info : ws281x_chipinfo)
    (hne : info.zero_val ≠ info.one_val) (n : Nat) (hn : n ≤ 8) (p : Nat)
    (hp : p < 256) (acc : Nat) :
    List.foldl (fun a s => 2 * a + (if s = info.one_val then 1 else 0)) acc
        (formatSubpixelAux info n p)
      = acc * 2 ^ n + p / 2 ^ (8 - n) := by
  induction n generalizing p acc with
  | zero =>
      simp [formatSubpixelAux, Nat.div_eq_of_lt hp]
  | succ n ih =>
      rw [formatSubpixelAux, List.foldl_cons]
      have hp2 : (p <<< 1) % 256 < 256 := Nat.mod_lt _ (by norm_num)
      rw [ih (by omega) _ hp2]
      have hsh : p <<< 1 = 2 * p := by rw [Nat.shiftLeft_eq]; ring
      have hpow : (0 : Nat) < 2 ^ (7 - n) := Nat.pow_pos (by norm_num)
      by_cases hc : p &&& 0x80 ≠ 0
      · have hge : 128 ≤ p := (and_0x80_ne_zero_iff_le p hp).mp hc
        rw [if_pos hc, if_pos rfl]
        have hpv : (p <<< 1) % 256 = 2 * (p - 128) := by rw [hsh]; omega
        have e1 : 2 * (p - 128) / 2 ^ (8 - n) = (p - 128) / 2 ^ (7 - n) := by
          rw [show 8 - n = (7 - n) + 1 from by omega, pow_succ,
            mul_comm (2 ^ (7 - n)) 2]
          exact Nat.mul_div_mul_left _ _ (by norm_num)
        have h7 : (2 : Nat) ^ (7 - n) * 2 ^ n = 128 := by
          rw [← pow_add, show 7 - n + n = 7 from by omega]
          norm_num
        have e2 : p / 2 ^ (7 - n) = (p - 128) / 2 ^ (7 - n) + 2 ^ n := by
          have hsplit : (p - 128) + 2 ^ (7 - n) * 2 ^ n = p := by rw [h7]; omega
          calc p / 2 ^ (7 - n)
              = ((p - 128) + 2 ^ (7 - n) * 2 ^ n) / 2 ^ (7 - n) := by rw [hsplit]
            _ = (p - 128) / 2 ^ (7 - n) + 2 ^ n := Nat.add_mul_div_left _ _ hpow
        rw [hpv, e1, show 8 - (n + 1) = 7 - n from by omega, e2, pow_succ]
        ring
      · have hlt : p < 128 := by
          rcases Nat.lt_or_ge p 128 with h | h
          · exact h
          · exact absurd ((and_0x80_ne_zero_iff_le p hp).mpr h) hc
        rw [if_neg hc, if_neg hne]
        have hpv : (p <<< 1) % 256 = 2 * p := by rw [hsh]; omega
        have e1 : 2 * p / 2 ^ (8 - n) = p / 2 ^ (7 - n) := by
          rw [show 8 - n = (7 - n) + 1 from by omega, pow_succ,
            mul_comm (2 ^ (7 - n)) 2]
          exact Nat.mul_div_mul_left _ _ (by norm_num)
        rw [hpv, e1, show 8 - (n + 1) = 7 - n from by omega, pow_succ]
        ring

/-! ## Claim theorems -/

/-- C1: for every brightness byte 0-255 and every profile with the
spec's 8-symbol subpixel layout and distinct symbols,
`ws281x_format_subpixel` emits exactly `subpixel_sz` symbol bytes, one
per bit of the input MSB-first (`one_val` for a 1 bit, `zero_val` for a
0 bit), and decoding the emitted sequence position by position
reconstructs the original byte. -/
theorem ws281x_format_subpixel_roundtrip (info : ws281x_chipinfo)
    (h8 : info.subpixel_sz = 8) (hne : info.zero_val ≠ info.one_val)
    (pixel : Nat) (hp : pixel < 256) :
    (ws281x_format_subpixel info pixel).length = info.subpixel_sz
    ∧ (∀ i, i < info.subpixel_sz →
        (ws281x_format_subpixel info pixel)[i]? =
          some (if pixel.testBit (7 - i) then info.one_val else info.zero_val))
    ∧ decodeSubpixel info (ws281x_format_subpixel info pixel) = pixel := by
  have hmod : pixel % 256 = pixel := Nat.mod_eq_of_lt hp
  refine ⟨ws281x_format_subpixel_length info pixel, ?_, ?_⟩
  · intro i hi
    rw [h8] at hi
    rw [ws281x_format_subpixel, hmod, h8]
    exact formatSubpixelAux_getElem info 8 le_rfl pixel hp i hi
  · rw [decodeSubpixel, ws281x_format_subpixel, hmod, h8]
    rw [formatSubpixelAux_decode info hne 8 le_rfl pixel hp 0]
    norm_num

/-- Witness for C1 at the reference profile and brightness 167. -/
theorem ws281x_format_subpixel_roundtrip_witness :
    (ws281x_format_subpixel ws2812b_info 167).length = ws2812b_info.subpixel_sz
    ∧ (∀ i, i < ws2812b_info.subpixel_sz →
        (ws281x_format_subpixel ws2812b_info 167)[i]? =
          some (if (167 : Nat).testBit (7 - i) then ws2812b_info.one_val
            else ws2812b_info.zero_val))
    ∧ decodeSubpixel ws2812b_info (ws281x_format_subpixel ws2812b_info 167) = 167 :=
  ws281x_format_subpixel_roundtrip ws2812b_info rfl (by decide) 167 (by decide)

/-- C2: for every g, r, b, `ws2812_format_pixel_grb` emits exactly
`pixel_sz` bytes (for any profile with the documented
`pixel_sz = 3 * subpixel_sz` layout): the green subpixel encoding at
offset 0, the red one at offset `subpixel_sz`, and the blue one at
offset `2 * subpixel_sz` — transmission order G, R, B regardless of the
call-argument order. -/
theorem ws2812_format_pixel_grb_layout (info : ws281x_chipinfo)
    (hps : info.pixel_sz = 3 * info.subpixel_sz) (g r b : Nat) :
    (ws2812_format_pixel_grb info g r b).length = info.pixel_sz
    ∧ (ws2812_format_pixel_grb info g r b).take info.subpixel_sz
        = ws281x_format_subpixel info g
    ∧ ((ws2812_format_pixel_grb info g r b).drop info.subpixel_sz).take info.subpixel_sz
        = ws281x_format_subpixel info r
    ∧ (ws2812_format_pixel_grb info g r b).drop (2 * info.subpixel_sz)
        = ws281x_format_subpixel info b := by
  refine ⟨by rw [ws2812_format_pixel_grb_length, hps], ?_, ?_, ?_⟩
  · rw [ws2812_format_pixel_grb, List.append_assoc]
    exact List.take_left' (ws281x_format_subpixel_length info g)
  · rw [ws2812_format_pixel_grb, List.append_assoc,
      List.drop_left' (ws281x_format_subpixel_length info g)]
    exact List.take_left' (ws281x_format_subpixel_length info r)
  · rw [ws2812_format_pixel_grb]
    have hlen : (ws281x_format_subpixel info g ++ ws281x_format_subpixel info r).length
        = 2 * info.subpixel_sz := by
      rw [List.length_append, ws281x_format_subpixel_length,
        ws281x_format_subpixel_length]
      ring
    exact List.drop_left' hlen

/-- Witness for C2 at the reference profile with the spec's example
arguments g=0x10, r=0x20, b=0x30. -/
theorem ws2812_format_pixel_grb_layout_witness :
    (ws2812_format_pixel_grb ws2812b_info 0x10 0x20 0x30).length = ws2812b_info.pixel_sz
    ∧ (ws2812_format_pixel_grb ws2812b_info 0x10 0x20 0x30).take ws2812b_info.subpixel_sz
        = ws281x_format_subpixel ws2812b_info 0x10
    ∧ ((ws2812_format_pixel_grb ws2812b_info 0x10 0x20 0x30).drop
          ws2812b_info.subpixel_sz).take ws2812b_info.subpixel_sz
        = ws281x_format_subpixel ws2812b_info 0x20
    ∧ (ws2812_format_pixel_grb ws2812b_info 0x10 0x20 0x30).drop
          (2 * ws2812b_info.subpixel_sz)
        = ws281x_format_subpixel ws2812b_info 0x30 :=
  ws2812_format_pixel_grb_layout ws2812b_info rfl 0x10 0x20 0x30

/-- C3 counterexample: the claimed lock discipline — every mutation of
the channel state or the frame buffer inside
`ws281x_brightness_set_blocking` happens while the mutex is held — is
false on the code: `led_mc_calc_color_components` (the channel-state
update) runs at position 0 of the trace, before `mutex_lock`. -/
theorem ws281x_brightness_set_claimed_lock_discipline_false :
    ¬ mutationsUnderLock ws281x_brightness_set_trace := by
  unfold mutationsUnderLock
  decide

/-- C3 (amended): within `ws281x_brightness_set_blocking`, the frame
buffer is mutated and the frame transmitted only while the mutex is
held, and the channel-state update runs strictly before the lock is
acquired (no lock acquisition precedes it, and the lock is not held
during it). -/
theorem ws281x_brightness_set_lock_discipline :
    (∀ i, i < ws281x_brightness_set_trace.length →
      (mutatesFrameBuffer (ws281x_brightness_set_trace.getD i BsEvent.lockMutex) = true
        ∨ transmits (ws281x_brightness_set_trace.getD i BsEvent.lockMutex) = true) →
      lockHeldAt ws281x_brightness_set_trace i = true)
    ∧ (∀ i, i < ws281x_brightness_set_trace.length →
      mutatesChannelState (ws281x_brightness_set_trace.getD i BsEvent.lockMutex) = true →
      lockHeldAt ws281x_brightness_set_trace i = false
        ∧ (ws281x_brightness_set_trace.take i).count BsEvent.lockMutex = 0) := by
  constructor <;> decide

/-- C4: `ws281x_brightness_set_blocking` returns the transport's
`spi_sync` result unchanged (the error itself on failure, 0 on
success), performs exactly one transmission (no retry), and keeps the
updated channel state — with the resulting pixelstream rebuilt from
that retained state, so a subsequent successful write reflects the
latest intent. -/
theorem ws281x_brightness_set_error_propagation (info : ws281x_chipinfo)
    (st : ws281x_state) (k : Nat) (comps : Fin 3 → Nat) (spi_sync_ret : Int) :
    ((ws281x_brightness_set_blocking info st k comps spi_sync_ret).2 = spi_sync_ret)
    ∧ (ws281x_brightness_set_blocking info st k comps spi_sync_ret).1.leds
        = st.leds.set k (led_mc_calc_color_components (st.leds.getD k noSubled) comps)
    ∧ (ws281x_brightness_set_blocking info st k comps spi_sync_ret).1.pixelstream
        = ws281x_update_pixelstream info
            ((ws281x_brightness_set_blocking info st k comps spi_sync_ret).1.leds)
    ∧ ws281x_brightness_set_trace.count BsEvent.spiWrite = 1 := by
  refine ⟨?_, rfl, rfl, by decide⟩
  by_cases h : spi_sync_ret = 0 <;> simp [ws281x_brightness_set_blocking, ws281x_write, h]

/-- C5: end-to-end example — chain of 2 LEDs under the reference
profile, LED 0 at (r=0, g=0, b=0) and LED 1 at (r=255, g=0, b=0):
the rebuilt frame is 48 bytes, bytes 0-23 all 0xc0, bytes 24-31 all
0xc0, bytes 32-39 all 0xfc, bytes 40-47 all 0xc0. -/
theorem ws281x_end_to_end_example :
    (ws281x_update_pixelstream ws2812b_info exampleChain).length = 48
    ∧ (ws281x_update_pixelstream ws2812b_info exampleChain).take 24
        = List.replicate 24 0xc0
    ∧ ((ws281x_update_pixelstream ws2812b_info exampleChain).drop 24).take 8
        = List.replicate 8 0xc0
    ∧ ((ws281x_update_pixelstream ws2812b_info exampleChain).drop 32).take 8
        = List.replicate 8 0xfc
    ∧ (ws281x_update_pixelstream ws2812b_info exampleChain).drop 40
        = List.replicate 8 0xc0 := by
  decide

/-- C6: for a chain of `n ≥ 1` LEDs (any profile with the documented
`pixel_sz = 3 * subpixel_sz` layout), the pixelstream is allocated with
exactly `n * pixel_sz` bytes at probe, every rebuild produces exactly
`n * pixel_sz` bytes, and every transmission hands the transport
exactly `n * pixel_sz` bytes. -/
theorem ws281x_frame_size_invariant (info : ws281x_chipinfo)
    (hps : info.pixel_sz = 3 * info.subpixel_sz)
    (leds : List (Fin 3 → mc_subled)) (n : Nat) (hn : leds.length = n)
    (_hpos : 1 ≤ n) :
    ws281x_alloc_len info n = n * info.pixel_sz
    ∧ (ws281x_update_pixelstream info leds).length = n * info.pixel_sz
    ∧ ws281x_write_len info n = n * info.pixel_sz := by
  refine ⟨Nat.mul_comm _ _, ?_, Nat.mul_comm _ _⟩
  rw [ws281x_update_pixelstream_length, hn, hps]

/-- Witness for C6 at the reference profile with the example chain of
2 LEDs. -/
theorem ws281x_frame_size_invariant_witness :
    ws281x_alloc_len ws2812b_info 2 = 2 * ws2812b_info.pixel_sz
    ∧ (ws281x_update_pixelstream ws2812b_info exampleChain).length
        = 2 * ws2812b_info.pixel_sz
    ∧ ws281x_write_len ws2812b_info 2 = 2 * ws2812b_info.pixel_sz :=
  ws281x_frame_size_invariant ws2812b_info rfl exampleChain 2 rfl (by decide)

/-- C7: changing only LED `k`'s channel values and rebuilding leaves
the `pixel_sz`-sized byte region of every other LED index identical to
the previous rebuild's result, and the region at offset `k * pixel_sz`
becomes exactly the encoding of the new channel values. -/
theorem ws281x_update_pixelstream_localized (info : ws281x_chipinfo)
    (hps : info.pixel_sz = 3 * info.subpixel_sz)
    (leds : List (Fin 3 → mc_subled)) (k : Nat) (snew : Fin 3 → mc_subled) :
    (∀ j, j < leds.length → j ≠ k →
      ((ws281x_update_pixelstream info (leds.set k snew)).drop
          (j * info.pixel_sz)).take info.pixel_sz
        = ((ws281x_update_pixelstream info leds).drop
            (j * info.pixel_sz)).take info.pixel_sz)
    ∧ (k < leds.length →
      ((ws281x_update_pixelstream info (leds.set k snew)).drop
          (k * info.pixel_sz)).take info.pixel_sz
        = ws2812_format_pixel_grb info (snew 1).brightness (snew 0).brightness
            (snew 2).brightness) := by
  constructor
  · intro j hj hjk
    have hj2 : j < (leds.set k snew).length := by
      rw [List.length_set]
      exact hj
    rw [hps, ws281x_update_pixelstream_region info _ j hj2,
      ws281x_update_pixelstream_region info _ j hj]
    have hsame : (leds.set k snew).getD j noSubled = leds.getD j noSubled := by
      rw [List.getD_eq_getElem?_getD, List.getD_eq_getElem?_getD,
        List.getElem?_set_ne (Ne.symm hjk)]
    rw [hsame]
  · intro hk
    have hk2 : k < (leds.set k snew).length := by
      rw [List.length_set]
      exact hk
    rw [hps, ws281x_update_pixelstream_region info _ k hk2]
    have hnew : (leds.set k snew).getD k noSubled = snew := by
      rw [List.getD_eq_getElem?_getD, List.getElem?_set_self hk]
      rfl
    rw [hnew]

/-- Witness for C7: on the example chain, setting LED 0 to full white
leaves LED 1's region unchanged and rewrites LED 0's region to the new
encoding. -/
theorem ws281x_update_pixelstream_localized_witness :
    (((ws281x_update_pixelstream ws2812b_info
          (exampleChain.set 0 (fun _ => { color_index := 0, brightness := 255 }))).drop
        (1 * ws2812b_info.pixel_sz)).take ws2812b_info.pixel_sz
      = ((ws281x_update_pixelstream ws2812b_info exampleChain).drop
          (1 * ws2812b_info.pixel_sz)).take ws2812b_info.pixel_sz)
    ∧ (((ws281x_update_pixelstream ws2812b_info
          (exampleChain.set 0 (fun _ => { color_index := 0, brightness := 255 }))).drop
        (0 * ws2812b_info.pixel_sz)).take ws2812b_info.pixel_sz
      = ws2812_format_pixel_grb ws2812b_info 255 255 255) :=
  ⟨(ws281x_update_pixelstream_localized ws2812b_info rfl exampleChain 0
      (fun _ => { color_index := 0, brightness := 255 })).1 1 (by decide) (by decide),
   (ws281x_update_pixelstream_localized ws2812b_info rfl exampleChain 0
      (fun _ => { color_index := 0, brightness := 255 })).2 (by decide)⟩

/-- C8: with zero child LED descriptors declared, `ws281x_spi_probe`
returns `-EINVAL` immediately after counting the children — before any
chain allocation, lock or transport setup, pixelstream allocation, or
LED registration — for every possible outcome of those later steps. -/
theorem ws281x_spi_probe_zero_leds (chain_alloc_ok : Bool)
    (mutex_ret spi_setup_ret : Int) (stream_alloc_ok : Bool) (register_ret : Int) :
    ws281x_spi_probe 0 chain_alloc_ok mutex_ret spi_setup_ret stream_alloc_ok
        register_ret
      = ([ProbeEvent.getChildCount], -EINVAL)
    ∧ ProbeEvent.allocChain ∉ (ws281x_spi_probe 0 chain_alloc_ok mutex_ret
        spi_setup_ret stream_alloc_ok register_ret).1
    ∧ ProbeEvent.registerLeds ∉ (ws281x_spi_probe 0 chain_alloc_ok mutex_ret
        spi_setup_ret stream_alloc_ok register_ret).1 := by
  have h : ws281x_spi_probe 0 chain_alloc_ok mutex_ret spi_setup_ret
      stream_alloc_ok register_ret = ([ProbeEvent.getChildCount], -EINVAL) := rfl
  refine ⟨h, ?_, ?_⟩ <;> rw [h] <;> decide

/-- C9: registration fixes the subled slots as slot 0 = red,
slot 1 = green, slot 2 = blue, and the frame rebuild reads green from
slot 1, red from slot 0 and blue from slot 2 for every LED — so
channel values stored in (red, green, blue) slot order are transmitted
in G, R, B order. -/
theorem ws281x_grb_slot_correspondence :
    (ws281x_register_colors 0 = LED_COLOR_ID_RED
      ∧ ws281x_register_colors 1 = LED_COLOR_ID_GREEN
      ∧ ws281x_register_colors 2 = LED_COLOR_ID_BLUE)
    ∧ ∀ (info : ws281x_chipinfo) (s : Fin 3 → mc_subled)
        (rest : List (Fin 3 → mc_subled)),
        ws281x_update_pixelstream info (s :: rest)
          = ws281x_format_subpixel info (s 1).brightness
            ++ (ws281x_format_subpixel info (s 0).brightness
            ++ (ws281x_format_subpixel info (s 2).brightness
            ++ ws281x_update_pixelstream info rest)) := by
  refine ⟨⟨rfl, rfl, rfl⟩, ?_⟩
  intro info s rest
  simp [ws281x_update_pixelstream, ws2812_format_pixel_grb, List.append_assoc]

/-- C10: every byte of a rebuilt frame equals either the profile's
`zero_val` or its `one_val`, for every possible channel state. -/
theorem ws281x_pixelstream_symbols_only (info : ws281x_chipinfo)
    (leds : List (Fin 3 → mc_subled)) (byte : Nat)
    (hb : byte ∈ ws281x_update_pixelstream info leds) :
    byte = info.zero_val ∨ byte = info.one_val :=
  mem_ws281x_update_pixelstream info leds byte hb

/-- Witness for C10: the byte 0xc0 occurring in a one-LED all-zero
frame under the reference profile is one of the two symbols. -/
theorem ws281x_pixelstream_symbols_only_witness :
    (0xc0 : Nat) = ws2812b_info.zero_val ∨ (0xc0 : Nat) = ws2812b_info.one_val :=
  ws281x_pixelstream_symbols_only ws2812b_info [noSubled] 0xc0 (by decide)
